import Mathlib

/-!
Shallow embedding of the order-lifecycle and derived-statistics subsystem of a
multi-tenant restaurant point-of-sale system: the SQL trigger functions
(`update_customer_stats`, `generate_order_number`, `is_revenue_center_open`,
`validate_order_item`, `set_order_number`), the client services
(`PaymentService.calculateOrderPaymentStatus`,
`CustomerService.updateCustomer` / `updateCustomerOrderStats`,
`OrderService.generateOrderNumber`, `BusinessHoursService.isRevenueCenterOpen`)
and the `create-kitchen-owner` serverless handler.

Modelling conventions:
- monetary values are integers counting cents (the store holds `decimal(10,2)`
  fixed-point values, which are exactly the integer multiples of 0.01);
- timestamps are naturals counting milliseconds since the epoch;
- times of day are naturals counting minutes since midnight;
- SQL `NULL`-able columns are `Option`s; a SQL comparison involving `NULL`
  is not true, which the `Option` matches reproduce;
- tables are lists of rows; `SELECT ... WHERE` is `List.filter` / `List.find?`,
  `EXISTS` is `List.any`, `COUNT(*)` is the length of the filtered list.
-/

namespace POS

/-! ## Payments (src/src/services/paymentService.ts) -/

/-- A row of the `payments` table as `PaymentService.calculateOrderPaymentStatus`
sees it: the TypeScript code reads `p.amount` and compares `p.status` against
string literals, so the status is kept as a string. -/
structure Payment where
  amount : Int
  status : String
deriving DecidableEq

/-- `PaymentService.calculateOrderPaymentStatus(payments)`: derives the
order-level payment status from the payment rows alone.  Note the function
receives no order total; `totalAmount` is the sum over the payment rows. -/
def calculateOrderPaymentStatus (payments : List Payment) : String :=
  if payments.length = 0 then "pending"
  else
    let hasCompleted := payments.any (fun p => p.status == "completed")
    let hasPending := payments.any (fun p => p.status == "pending")
    let totalAmount : Int := (payments.map (fun p => p.amount)).sum
    let completedAmount : Int :=
      ((payments.filter (fun p => p.status == "completed")).map (fun p => p.amount)).sum
    if completedAmount ≥ totalAmount then "completed"
    else if hasCompleted && hasPending then "partial"
    else "pending"

/-- Sum of the amounts of all payments in the list (the code's `totalAmount`). -/
def paymentsTotal (payments : List Payment) : Int :=
  (payments.map (fun p => p.amount)).sum

/-- Sum of the amounts of the payments with status `completed`
(the code's `completedAmount`). -/
def paymentsCompletedTotal (payments : List Payment) : Int :=
  ((payments.filter (fun p => p.status == "completed")).map (fun p => p.amount)).sum

/-- Some payment in the list has status `completed`. -/
def anyCompleted (payments : List Payment) : Bool :=
  payments.any (fun p => p.status == "completed")

/-- Some payment in the list has status `pending`. -/
def anyPending (payments : List Payment) : Bool :=
  payments.any (fun p => p.status == "pending")

/-- The order-level payment status as the specification's words describe it:
`completed` when the completed sum reaches the ORDER total `t`.  This is the
claimed rule, kept separate so it can be compared with the code's
`calculateOrderPaymentStatus`, which never sees the order total. -/
def specOrderPaymentStatus (t : Int) (payments : List Payment) : String :=
  if payments.length = 0 then "pending"
  else if paymentsCompletedTotal payments ≥ t then "completed"
  else if anyCompleted payments && anyPending payments then "partial"
  else "pending"

/-! ## Orders, customers and the statistics trigger
(src/supabase/migrations/20250811084430_steep_unit.sql,
 src/supabase/migrations/20250811084507_sunny_rain.sql) -/

/-- `order_status` enum. -/
inductive OrderStatus
  | pending
  | preparing
  | ready
  | served
  | cancelled
deriving DecidableEq

/-- A row of the `orders` table (the columns the verified subsystem reads).
`status` and `order_number` are nullable in the schema. -/
structure OrderRow where
  id : Nat
  restaurant_id : Nat
  customer_id : Option Nat
  order_number : Option String
  status : Option OrderStatus
  total_amount : Int
  created_at : Nat
  updated_at : Nat
deriving DecidableEq

/-- A row of the `customers` table (aggregate columns only):
`total_orders integer DEFAULT 0`, `total_spent decimal(10,2) DEFAULT 0.00`,
`last_order_at timestamptz` nullable. -/
structure Customer where
  id : Nat
  total_orders : Int
  total_spent : Int
  last_order_at : Option Nat
deriving DecidableEq

/-- The body of the `update_customer_stats()` trigger function, as its effect on
one matching customer row.  Two sequential `IF` blocks:
the first fires when `NEW.status = 'served' AND (OLD.status IS NULL OR
OLD.status != 'served')`, the second when `OLD.status = 'served' AND
NEW.status = 'cancelled'` (with `GREATEST(..., 0)` clamping). -/
def update_customer_stats (old new : OrderRow) (c : Customer) : Customer :=
  let c1 :=
    if new.status = some OrderStatus.served ∧
        (old.status = none ∨ old.status ≠ some OrderStatus.served) then
      { c with total_orders := c.total_orders + 1,
               total_spent := c.total_spent + new.total_amount,
               last_order_at := some new.updated_at }
    else c
  if old.status = some OrderStatus.served ∧ new.status = some OrderStatus.cancelled then
    { c1 with total_orders := max (c1.total_orders - 1) 0,
              total_spent := max (c1.total_spent - new.total_amount) 0 }
  else c1

/-- `update_customer_stats_trigger`: `AFTER UPDATE ON orders FOR EACH ROW
WHEN (NEW.customer_id IS NOT NULL)`; the function updates the customers row
`WHERE id = NEW.customer_id`. -/
def update_customer_stats_trigger (old new : OrderRow) (customers : List Customer) :
    List Customer :=
  match new.customer_id with
  | none => customers
  | some cid => customers.map (fun c => if c.id = cid then update_customer_stats old new c else c)

/-- One orders-UPDATE observed by the statistics trigger: the OLD and NEW row. -/
structure StatUpdate where
  old : OrderRow
  new : OrderRow
deriving DecidableEq

/-- A sequence of order updates applied to one customer through
`update_customer_stats`. -/
def runStatUpdates (c : Customer) (steps : List StatUpdate) : Customer :=
  steps.foldl (fun acc s => update_customer_stats s.old s.new acc) c

/-! ## Order numbers
(SQL `generate_order_number` / `set_order_number` in
src/supabase/migrations/20250811084507_sunny_rain.sql, and the client-side
`OrderService.generateOrderNumber`).

Both generators are parameterised by the already-rendered `YYYYMMDD` date
prefix and by the current day number (days since the epoch); timestamps are
milliseconds since the epoch, all in one time zone. -/

/-- Milliseconds in one day. -/
def msPerDay : Nat := 86400000

/-- `DATE(created_at)`: the day number a millisecond timestamp falls on. -/
def dateOf (t : Nat) : Nat := t / msPerDay

/-- `SELECT COUNT(*) FROM orders WHERE restaurant_id = r AND
DATE(created_at) = CURRENT_DATE` (with `today` standing for `CURRENT_DATE`). -/
def dbTodayCount (orders : List OrderRow) (r today : Nat) : Nat :=
  (orders.filter (fun o => o.restaurant_id == r && dateOf o.created_at == today)).length

/-- Postgres `LPAD(s, n, fill)`: pads on the left up to length `n`; a string
already longer than `n` is truncated, keeping its leftmost `n` characters. -/
def lpad (s : String) (n : Nat) (fill : Char) : String :=
  if n ≤ s.length then (s.toList.take n).asString
  else (List.replicate (n - s.length) fill).asString ++ s

/-- JavaScript `String.prototype.padStart(n, fill)`: pads on the left up to
length `n`; a longer string is returned unchanged, never truncated. -/
def padStart (s : String) (n : Nat) (fill : Char) : String :=
  if n ≤ s.length then s
  else (List.replicate (n - s.length) fill).asString ++ s

/-- SQL `generate_order_number(restaurant_uuid)`:
`date_prefix || '-' || LPAD((order_count + 1)::text, 4, '0')`. -/
def generate_order_number (orders : List OrderRow) (r today : Nat) (datePrefix : String) :
    String :=
  datePrefix ++ "-" ++ lpad (toString (dbTodayCount orders r today + 1)) 4 '0'

/-- The count used by `OrderService.generateOrderNumber`: orders of the tenant
with `created_at` satisfying `gte day T00:00:00.000` and `lt day T23:59:59.999`,
i.e. strictly before the final millisecond of the day. -/
def clientTodayCount (orders : List OrderRow) (r today : Nat) : Nat :=
  (orders.filter (fun o => o.restaurant_id == r
      && decide (today * msPerDay ≤ o.created_at)
      && decide (o.created_at < today * msPerDay + (msPerDay - 1)))).length

/-- Client-side `OrderService.generateOrderNumber`:
`datePrefix + '-' + String(count + 1).padStart(4, '0')`. -/
def clientGenerateOrderNumber (orders : List OrderRow) (r today : Nat) (datePrefix : String) :
    String :=
  datePrefix ++ "-" ++ padStart (toString (clientTodayCount orders r today + 1)) 4 '0'

/-- The order number as claim C4 words it: the count of the tenant's orders
created on the date, plus one, zero-padded to 4 digits (padding, not
truncation), prefixed with the date. -/
def claimedOrderNumber (orders : List OrderRow) (r today : Nat) (datePrefix : String) :
    String :=
  datePrefix ++ "-" ++ padStart (toString (dbTodayCount orders r today + 1)) 4 '0'

/-- `set_order_number()` `BEFORE INSERT` trigger: fills in `order_number` from
`generate_order_number` when it is `NULL` or empty. -/
def set_order_number (orders : List OrderRow) (o : OrderRow) (today : Nat)
    (datePrefix : String) : OrderRow :=
  if o.order_number = none ∨ o.order_number = some "" then
    { o with order_number := some (generate_order_number orders o.restaurant_id today datePrefix) }
  else o

/-! ## The store state and its order operations -/

/-- The slice of the database the statistics subsystem touches. -/
structure DBState where
  orders : List OrderRow
  customers : List Customer
deriving DecidableEq

/-- `INSERT INTO orders`: runs the `BEFORE INSERT` trigger `set_order_number`
and appends the row.  Per the DDL, `update_customer_stats_trigger` is attached
`AFTER UPDATE` only, so an insert never runs the customer-statistics
function. -/
def insertOrder (s : DBState) (o : OrderRow) (today : Nat) (datePrefix : String) : DBState :=
  { s with orders := s.orders ++ [set_order_number s.orders o today datePrefix] }

/-- `UPDATE orders SET status = st, updated_at = t WHERE id = oid`, with the
`AFTER UPDATE` customer-statistics trigger firing for each updated row. -/
def updateOrderStatus (s : DBState) (oid : Nat) (st : OrderStatus) (t : Nat) : DBState :=
  let pairs := s.orders.map (fun o =>
    if o.id = oid then (o, { o with status := some st, updated_at := t }) else (o, o))
  { orders := pairs.map Prod.snd,
    customers := (pairs.filter (fun p => p.1.id == oid)).foldl
      (fun cs p => update_customer_stats_trigger p.1 p.2 cs) s.customers }

/-! ## Two concurrent order creations (claim C9)

Each session first executes the `BEFORE INSERT` trigger's `COUNT(*)` against
the rows committed so far, then, on its next step, renders its order number
from the count it remembered and commits its row.  Nothing in
`generate_order_number` serialises the two sessions. -/

/-- Shared table plus each session's private memory (its count, then its
generated number). -/
structure RaceState where
  committed : List OrderRow
  acount : Option Nat
  bcount : Option Nat
  anum : Option String
  bnum : Option String
deriving DecidableEq

/-- One step of session A: first the trigger's count, then number + insert. -/
def raceStepA (r today : Nat) (datePrefix : String) (row : OrderRow) (s : RaceState) :
    RaceState :=
  match s.acount with
  | none => { s with acount := some (dbTodayCount s.committed r today) }
  | some c =>
    match s.anum with
    | some _ => s
    | none =>
      let num := datePrefix ++ "-" ++ lpad (toString (c + 1)) 4 '0'
      { s with anum := some num,
               committed := s.committed ++ [{ row with order_number := some num }] }

/-- One step of session B: first the trigger's count, then number + insert. -/
def raceStepB (r today : Nat) (datePrefix : String) (row : OrderRow) (s : RaceState) :
    RaceState :=
  match s.bcount with
  | none => { s with bcount := some (dbTodayCount s.committed r today) }
  | some c =>
    match s.bnum with
    | some _ => s
    | none =>
      let num := datePrefix ++ "-" ++ lpad (toString (c + 1)) 4 '0'
      { s with bnum := some num,
               committed := s.committed ++ [{ row with order_number := some num }] }

/-- Run the two sessions under a schedule (`true` = session A moves). -/
def runRace (r today : Nat) (datePrefix : String) (rowA rowB : OrderRow)
    (sched : List Bool) : RaceState :=
  sched.foldl
    (fun s b => if b then raceStepA r today datePrefix rowA s
                else raceStepB r today datePrefix rowB s)
    { committed := [], acount := none, bcount := none, anum := none, bnum := none }

/-! ## Business hours
(SQL `is_revenue_center_open` and `BusinessHoursService.isRevenueCenterOpen`;
both run the identical algorithm, one over SQL `time` values, one over
lexicographically compared `HH:MM` strings — modelled once, with times of day
as minutes since midnight). -/

/-- A `business_hours` row for one revenue center:
`(day_of_week, open_time, close_time, is_closed)`; the pair
(revenue center, day) is unique, `0 = Sunday`. -/
structure BusinessHoursRow where
  day_of_week : Nat
  open_time : Option Nat
  close_time : Option Nat
  is_closed : Bool
deriving DecidableEq

/-- `is_revenue_center_open(center, t)` over the center's `business_hours`
rows: no row for the day → closed; `is_closed` → closed; a `NULL` open or
close time → closed; overnight span (`close < open`) → open when
`tod ≥ open OR tod ≤ close`; otherwise open when
`open ≤ tod AND tod ≤ close` (both endpoints inclusive). -/
def is_revenue_center_open (rows : List BusinessHoursRow) (day tod : Nat) : Bool :=
  match rows.find? (fun b => b.day_of_week == day) with
  | none => false
  | some bh =>
    if bh.is_closed then false
    else
      match bh.open_time, bh.close_time with
      | some o, some c =>
        if c < o then decide (o ≤ tod) || decide (tod ≤ c)
        else decide (o ≤ tod) && decide (tod ≤ c)
      | _, _ => false

/-! ## Order item validation
(SQL `validate_order_item` trigger function and the `check_item_reference`
CHECK constraint on `order_items`). -/

/-- A `menu_items` row (the columns the validator reads). -/
structure MenuItemRow where
  id : Nat
  restaurant_id : Nat
deriving DecidableEq

/-- A `combo_meals` row (the columns the validator reads). -/
structure ComboMealRow where
  id : Nat
  restaurant_id : Nat
deriving DecidableEq

/-- The `order_items` columns `validate_order_item` reads from `NEW`. -/
structure OrderItemRow where
  order_id : Nat
  menu_item_id : Option Nat
  combo_meal_id : Option Nat
deriving DecidableEq

/-- The three `RAISE EXCEPTION` sites of `validate_order_item`. -/
inductive OrderItemError
  /-- 'Order item must reference either a menu item or combo meal, but not both' -/
  | bothOrNeitherReference
  /-- 'Menu item does not belong to the same restaurant as the order' -/
  | menuItemWrongRestaurant
  /-- 'Combo meal does not belong to the same restaurant as the order' -/
  | comboMealWrongRestaurant
deriving DecidableEq

/-- The error taxonomy of the specification (§7). -/
inductive ErrKind
  | ValidationError
  | ReferentialError
deriving DecidableEq

/-- Which taxonomy kind each `RAISE EXCEPTION` of `validate_order_item`
falls under. -/
def kindOf : OrderItemError → ErrKind
  | OrderItemError.bothOrNeitherReference => ErrKind.ValidationError
  | OrderItemError.menuItemWrongRestaurant => ErrKind.ReferentialError
  | OrderItemError.comboMealWrongRestaurant => ErrKind.ReferentialError

/-- `validate_order_item()` `BEFORE INSERT OR UPDATE` trigger function:
first the both/neither check, then, for whichever reference is set, the SQL
`EXISTS (SELECT 1 FROM menu_items mi JOIN orders o ON o.id = NEW.order_id
WHERE mi.id = NEW.menu_item_id AND mi.restaurant_id = o.restaurant_id)` check
(and the symmetric one for combo meals).  A pure accept/reject. -/
def validate_order_item (menu_items : List MenuItemRow) (combo_meals : List ComboMealRow)
    (orders : List OrderRow) (new : OrderItemRow) : Except OrderItemError Unit :=
  if (new.menu_item_id = none ∧ new.combo_meal_id = none) ∨
      (new.menu_item_id ≠ none ∧ new.combo_meal_id ≠ none) then
    Except.error OrderItemError.bothOrNeitherReference
  else
    match new.menu_item_id with
    | some mid =>
      if menu_items.any (fun mi => mi.id == mid &&
          orders.any (fun o => o.id == new.order_id && mi.restaurant_id == o.restaurant_id)) then
        Except.ok ()
      else Except.error OrderItemError.menuItemWrongRestaurant
    | none =>
      match new.combo_meal_id with
      | some cid =>
        if combo_meals.any (fun cm => cm.id == cid &&
            orders.any (fun o => o.id == new.order_id && cm.restaurant_id == o.restaurant_id)) then
          Except.ok ()
        else Except.error OrderItemError.comboMealWrongRestaurant
      | none => Except.ok ()

/-- The `check_item_reference` CHECK constraint on `order_items`:
`(menu_item_id IS NOT NULL AND combo_meal_id IS NULL) OR
 (menu_item_id IS NULL AND combo_meal_id IS NOT NULL)`. -/
def check_item_reference (it : OrderItemRow) : Bool :=
  (it.menu_item_id.isSome && it.combo_meal_id.isNone) ||
  (it.menu_item_id.isNone && it.combo_meal_id.isSome)

/-! ## CustomerService (src/src/services/customerService.ts) -/

/-- A `Partial<Customer>` update object over the aggregate columns: each field
is present (`some`) or absent. -/
structure PartialCustomer where
  total_orders : Option Int
  total_spent : Option Int
  last_order_at : Option (Option Nat)
deriving DecidableEq

/-- `CustomerService.updateCustomer(customerId, updates)`: writes the supplied
column values straight onto the customers row (a plain store `update`, no
restriction on which columns may appear). -/
def updateCustomer (c : Customer) (u : PartialCustomer) : Customer :=
  { c with total_orders := u.total_orders.getD c.total_orders,
           total_spent := u.total_spent.getD c.total_spent,
           last_order_at := u.last_order_at.getD c.last_order_at }

/-- `CustomerService.updateCustomerOrderStats(customerId, orderAmount)`:
client-side read-modify-write that sets `total_orders + 1`,
`total_spent + orderAmount` and `last_order_at = now` through
`updateCustomer`.  `now` stands for `new Date().toISOString()`. -/
def updateCustomerOrderStats (c : Customer) (orderAmount : Int) (now : Nat) : Customer :=
  updateCustomer c
    { total_orders := some (c.total_orders + 1),
      total_spent := some (c.total_spent + orderAmount),
      last_order_at := some (some now) }

/-! ## Tenant provisioning
(src/supabase/functions/create-kitchen-owner/index.ts). -/

/-- A `kitchen_owners` row (the columns the handler's control flow reads). -/
structure KitchenOwnerRow where
  id : Nat
  email : String
  user_id : Option Nat
deriving DecidableEq

/-- An identity-provider (auth) account. -/
structure AuthUserRow where
  id : Nat
  email : String
deriving DecidableEq

/-- A `users` row linking an auth account to the application. -/
structure UserRow where
  auth_user_id : Nat
  email : String
deriving DecidableEq

/-- The tables the `create-kitchen-owner` handler touches. -/
structure ProvisionDB where
  kitchen_owners : List KitchenOwnerRow
  auth_users : List AuthUserRow
  users : List UserRow
deriving DecidableEq

/-- The handler's HTTP outcomes. -/
inductive ProvisionResponse
  /-- 400, `Missing required field: <field>` -/
  | badRequest (field : String)
  /-- 409, `Kitchen owner with this email already exists` -/
  | conflict
  /-- 500, `Failed to create kitchen owner` -/
  | ownerCreateFailed
  /-- 500, `Failed to create user account` (owner row rolled back) -/
  | authCreateFailed
  /-- 201 with the generated credentials -/
  | created (ownerId : Nat) (authId : Nat)
deriving DecidableEq

/-- The request body; `none` models an absent required field. -/
structure ProvisionRequest where
  email : Option String
  full_name : Option String
  subscription_plan : Option String
  payment_id : Option String
  subscription_amount : Option Int
  subscription_expires_at : Option String
deriving DecidableEq

/-- The `Deno.serve` handler of `create-kitchen-owner`, as a transition on the
store: validate the six required fields in order; reject with 409 when a
`kitchen_owners` row with the email already exists; insert the owner row;
create the auth account (`authOk` is the identity provider's verdict; on
failure the owner row is deleted again — the compensating delete); insert the
`users` row; link `user_id` on the owner row.  `newOwnerId` / `newAuthId`
stand for the generated ids. -/
def createKitchenOwnerHandler (db : ProvisionDB) (req : ProvisionRequest)
    (newOwnerId newAuthId : Nat) (authOk : Bool) : ProvisionDB × ProvisionResponse :=
  if req.email = none then (db, ProvisionResponse.badRequest "email")
  else if req.full_name = none then (db, ProvisionResponse.badRequest "full_name")
  else if req.subscription_plan = none then (db, ProvisionResponse.badRequest "subscription_plan")
  else if req.payment_id = none then (db, ProvisionResponse.badRequest "payment_id")
  else if req.subscription_amount = none then
    (db, ProvisionResponse.badRequest "subscription_amount")
  else if req.subscription_expires_at = none then
    (db, ProvisionResponse.badRequest "subscription_expires_at")
  else
    let email := req.email.getD ""
    if db.kitchen_owners.any (fun o => o.email == email) then
      (db, ProvisionResponse.conflict)
    else
      let newOwner : KitchenOwnerRow := { id := newOwnerId, email := email, user_id := none }
      let db1 := { db with kitchen_owners := db.kitchen_owners ++ [newOwner] }
      if authOk then
        let newAuth : AuthUserRow := { id := newAuthId, email := email }
        let newUser : UserRow := { auth_user_id := newAuthId, email := email }
        let db2 := { db1 with auth_users := db1.auth_users ++ [newAuth] }
        let db3 := { db2 with users := db2.users ++ [newUser] }
        let link := fun (o : KitchenOwnerRow) =>
          if o.id = newOwnerId then { o with user_id := some newAuthId } else o
        let db4 := { db3 with kitchen_owners := db3.kitchen_owners.map link }
        (db4, ProvisionResponse.created newOwnerId newAuthId)
      else
        ({ db1 with kitchen_owners :=
            db1.kitchen_owners.filter (fun o => o.id != newOwnerId) },
         ProvisionResponse.authCreateFailed)

/-! ## Concrete fixtures used by witnesses and counterexamples -/

/-- A fresh customer: `total_orders = 0`, `total_spent = 0.00`. -/
def freshCustomer : Customer :=
  { id := 1, total_orders := 0, total_spent := 0, last_order_at := none }

/-- An order of 25.50 (2550 cents) for customer 1, currently pending. -/
def order2550 : OrderRow :=
  { id := 7, restaurant_id := 1, customer_id := some 1, order_number := some "20250811-0001",
    status := some OrderStatus.pending, total_amount := 2550,
    created_at := 100, updated_at := 100 }

/-- `order2550` with a given status and update time. -/
def order2550At (st : OrderStatus) (t : Nat) : OrderRow :=
  { order2550 with status := some st, updated_at := t }

/-- The pending→served then served→cancelled update sequence of claim C2/C3. -/
def demoSteps : List StatUpdate :=
  [ { old := order2550At OrderStatus.pending 100, new := order2550At OrderStatus.served 200 },
    { old := order2550At OrderStatus.served 200, new := order2550At OrderStatus.cancelled 300 } ]

/-- An order created in the very last millisecond of day 0. -/
def lastMsOrder : OrderRow :=
  { id := 2, restaurant_id := 1, customer_id := none, order_number := some "20250811-0001",
    status := some OrderStatus.pending, total_amount := 10,
    created_at := 86399999, updated_at := 86399999 }

/-- An order created at the first instant of day 0. -/
def dayStartOrder : OrderRow :=
  { id := 3, restaurant_id := 1, customer_id := none, order_number := some "20250811-0001",
    status := some OrderStatus.pending, total_amount := 10,
    created_at := 0, updated_at := 0 }

/-- Business hours of claim C6's example: Monday (day 1), open 22:00 (1320),
close 02:00 (120), not marked closed. -/
def mondayOvernightRows : List BusinessHoursRow :=
  [ { day_of_week := 1, open_time := some 1320, close_time := some 120, is_closed := false } ]

/-- Menu item 5 belonging to restaurant 2. -/
def menuItemOtherTenant : MenuItemRow := { id := 5, restaurant_id := 2 }

/-- Combo meal 6 belonging to restaurant 2. -/
def comboMealOtherTenant : ComboMealRow := { id := 6, restaurant_id := 2 }

/-- Order 9 belonging to restaurant 1 (the validation examples attach items
to it). -/
def orderTenantOne : OrderRow :=
  { id := 9, restaurant_id := 1, customer_id := none, order_number := some "20250811-0002",
    status := some OrderStatus.pending, total_amount := 10,
    created_at := 0, updated_at := 0 }

/-- Provisioning store with an owner record for `owner@example.com` but no
identity-provider account for it. -/
def dbOwnerNoAuth : ProvisionDB :=
  { kitchen_owners := [{ id := 1, email := "owner@example.com", user_id := none }],
    auth_users := [], users := [] }

/-- A fully populated provisioning request for the same email. -/
def reqOwner : ProvisionRequest :=
  { email := some "owner@example.com", full_name := some "Owner",
    subscription_plan := some "basic", payment_id := some "pay_1",
    subscription_amount := some 4900, subscription_expires_at := some "2026-01-01" }

/-- The rows the two racing sessions try to insert. -/
def raceRowA : OrderRow :=
  { id := 11, restaurant_id := 1, customer_id := none, order_number := none,
    status := some OrderStatus.pending, total_amount := 10,
    created_at := 1000, updated_at := 1000 }

/-- Second racing insert, same tenant and day. -/
def raceRowB : OrderRow :=
  { id := 12, restaurant_id := 1, customer_id := none, order_number := none,
    status := some OrderStatus.pending, total_amount := 20,
    created_at := 2000, updated_at := 2000 }

/-! ## Theorems -/

/-- `calculateOrderPaymentStatus` written with the named aggregation helpers:
the empty check, then `completedAmount >= totalAmount`, then
`hasCompleted && hasPending`. -/
theorem calculateOrderPaymentStatus_eq (ps : List Payment) :
    calculateOrderPaymentStatus ps =
      if ps.length = 0 then "pending"
      else if paymentsCompletedTotal ps ≥ paymentsTotal ps then "completed"
      else if anyCompleted ps && anyPending ps then "partial"
      else "pending" := rfl

/-- C1 (counterexample): the claim compares the completed sum against the
order total.  For an order with total 100.00 and the single payment
`{amount: 40.00, status: completed}` (amounts in cents), the claimed rule
yields `pending` (4000 < 10000, no pending payment), but
`calculateOrderPaymentStatus` — which never receives the order total and
compares against the sum of the payment rows — returns `completed`
(4000 ≥ 4000). -/
theorem calculateOrderPaymentStatus_ignores_order_total :
    calculateOrderPaymentStatus [{ amount := 4000, status := "completed" }] = "completed" ∧
    specOrderPaymentStatus 10000 [{ amount := 4000, status := "completed" }] = "pending" ∧
    calculateOrderPaymentStatus [{ amount := 4000, status := "completed" }] ≠
      specOrderPaymentStatus 10000 [{ amount := 4000, status := "completed" }] := by
  refine ⟨?_, ?_, ?_⟩ <;> decide

/-- C1 (amended): the derived order-level payment status is computed from the
payment rows alone: `pending` for an empty list; `completed` when the sum of
completed amounts reaches the sum of ALL payment amounts (the function never
sees the order total); else `partial` when some payment is completed and some
pending; else `pending`. -/
theorem calculateOrderPaymentStatus_spec (ps : List Payment) :
    (ps = [] → calculateOrderPaymentStatus ps = "pending") ∧
    (ps ≠ [] → paymentsCompletedTotal ps ≥ paymentsTotal ps →
      calculateOrderPaymentStatus ps = "completed") ∧
    (ps ≠ [] → ¬ paymentsCompletedTotal ps ≥ paymentsTotal ps →
      anyCompleted ps = true → anyPending ps = true →
      calculateOrderPaymentStatus ps = "partial") ∧
    (ps ≠ [] → ¬ paymentsCompletedTotal ps ≥ paymentsTotal ps →
      ¬(anyCompleted ps = true ∧ anyPending ps = true) →
      calculateOrderPaymentStatus ps = "pending") := by
  have hlen : ps ≠ [] → ¬ ps.length = 0 := fun h => by simpa [List.length_eq_zero] using h
  rw [calculateOrderPaymentStatus_eq]
  refine ⟨?_, ?_, ?_, ?_⟩
  · intro h
    subst h
    rfl
  · intro h1 h2
    rw [if_neg (hlen h1), if_pos h2]
  · intro h1 h2 h3 h4
    rw [if_neg (hlen h1), if_neg h2, if_pos (by rw [h3, h4]; rfl)]
  · intro h1 h2 h3
    rw [if_neg (hlen h1), if_neg h2, if_neg ?_]
    intro hb
    exact h3 (by simpa [Bool.and_eq_true] using hb)

/-- C1 (witness): the spec's worked example, evaluated through the amended
theorem: payments `[{40.00, completed}, {60.00, pending}]` give `partial`;
after the second payment completes, `[{40.00, completed}, {60.00, completed}]`
give `completed` (amounts in cents). -/
theorem calculateOrderPaymentStatus_spec_witness :
    calculateOrderPaymentStatus
      [{ amount := 4000, status := "completed" }, { amount := 6000, status := "pending" }]
      = "partial" ∧
    calculateOrderPaymentStatus
      [{ amount := 4000, status := "completed" }, { amount := 6000, status := "completed" }]
      = "completed" :=
  ⟨(calculateOrderPaymentStatus_spec _).2.2.1 (by decide) (by decide) (by decide) (by decide),
   (calculateOrderPaymentStatus_spec _).2.1 (by decide) (by decide)⟩

/-- C2: for an update of an order with a customer, the trigger body
`update_customer_stats` (i) on a transition into `served` from any non-`served`
status adds 1 to `total_orders`, adds the order's `total_amount` to
`total_spent` and sets `last_order_at` to the order's update time; (ii) on a
`served` → `cancelled` transition subtracts 1 and the `total_amount`, each
clamped at 0; (iii) on every other transition leaves all three fields
unchanged. -/
theorem update_customer_stats_transitions (o : OrderRow) (oldSt newSt : OrderStatus)
    (t : Nat) (c : Customer) :
    (newSt = OrderStatus.served → oldSt ≠ OrderStatus.served →
      update_customer_stats { o with status := some oldSt }
          { o with status := some newSt, updated_at := t } c =
        { c with total_orders := c.total_orders + 1,
                 total_spent := c.total_spent + o.total_amount,
                 last_order_at := some t }) ∧
    (oldSt = OrderStatus.served → newSt = OrderStatus.cancelled →
      update_customer_stats { o with status := some oldSt }
          { o with status := some newSt, updated_at := t } c =
        { c with total_orders := max (c.total_orders - 1) 0,
                 total_spent := max (c.total_spent - o.total_amount) 0 }) ∧
    (¬(newSt = OrderStatus.served ∧ oldSt ≠ OrderStatus.served) →
      ¬(oldSt = OrderStatus.served ∧ newSt = OrderStatus.cancelled) →
      update_customer_stats { o with status := some oldSt }
          { o with status := some newSt, updated_at := t } c = c) := by
  refine ⟨?_, ?_, ?_⟩
  · intro h1 h2
    subst h1
    simp [update_customer_stats, h2]
  · intro h1 h2
    subst h1
    subst h2
    simp [update_customer_stats]
  · intro h1 h2
    cases oldSt <;> cases newSt <;> simp_all [update_customer_stats]

/-- C2 (witness): the spec's worked example: from `total_orders = 0`,
`total_spent = 0.00`, a pending→served update of an order of 25.50 (2550
cents) at time 200 yields `(1, 2550, some 200)`; the subsequent
served→cancelled update of the same order yields `(0, 0, some 200)`. -/
theorem update_customer_stats_transitions_witness :
    update_customer_stats (order2550At OrderStatus.pending 100)
        (order2550At OrderStatus.served 200) freshCustomer =
      { id := 1, total_orders := 1, total_spent := 2550, last_order_at := some 200 } ∧
    update_customer_stats (order2550At OrderStatus.served 200)
        (order2550At OrderStatus.cancelled 300)
        { id := 1, total_orders := 1, total_spent := 2550, last_order_at := some 200 } =
      { id := 1, total_orders := 0, total_spent := 0, last_order_at := some 200 } := by
  constructor
  · have h := (update_customer_stats_transitions (order2550At OrderStatus.pending 100)
      OrderStatus.pending OrderStatus.served 200 freshCustomer).1 rfl (by decide)
    exact h
  · have h := (update_customer_stats_transitions (order2550At OrderStatus.served 200)
      OrderStatus.served OrderStatus.cancelled 300
      { id := 1, total_orders := 1, total_spent := 2550, last_order_at := some 200 }).2.1
      rfl rfl
    exact h

/-- Each single firing of the statistics trigger body preserves the
non-negativity of `total_orders` and `total_spent`, given a non-negative order
amount: the increment branch only adds, and the decrement branch is clamped by
`GREATEST(..., 0)`. -/
theorem update_customer_stats_nonneg (old new : OrderRow) (c : Customer)
    (h0 : 0 ≤ c.total_orders) (h1 : 0 ≤ c.total_spent) (ha : 0 ≤ new.total_amount) :
    0 ≤ (update_customer_stats old new c).total_orders ∧
    0 ≤ (update_customer_stats old new c).total_spent := by
  by_cases hB : old.status = some OrderStatus.served ∧ new.status = some OrderStatus.cancelled
  · constructor <;> simp [update_customer_stats, hB]
  · by_cases hA : new.status = some OrderStatus.served ∧
        (old.status = none ∨ old.status ≠ some OrderStatus.served)
    · constructor <;> simp [update_customer_stats, hA, hB] <;> omega
    · constructor <;> simp [update_customer_stats, hA, hB] <;> assumption

/-- C3: over every sequence of order status updates (any order, any
repetitions, non-negative order amounts), the aggregates maintained by
`update_customer_stats` never become negative: starting from non-negative
`total_orders` and `total_spent`, both stay non-negative, the served→cancelled
decrement being clamped at zero. -/
theorem runStatUpdates_nonneg (c : Customer) (steps : List StatUpdate)
    (h0 : 0 ≤ c.total_orders) (h1 : 0 ≤ c.total_spent)
    (ha : ∀ s ∈ steps, 0 ≤ s.new.total_amount) :
    0 ≤ (runStatUpdates c steps).total_orders ∧
    0 ≤ (runStatUpdates c steps).total_spent := by
  induction steps generalizing c with
  | nil => exact ⟨h0, h1⟩
  | cons s rest ih =>
    have hs := update_customer_stats_nonneg s.old s.new c h0 h1 (ha s (by simp))
    exact ih (update_customer_stats s.old s.new c) hs.1 hs.2
      (fun x hx => ha x (by simp [hx]))

/-- C3 (witness): the pending→served then served→cancelled sequence on a fresh
customer, evaluated through the invariant theorem. -/
theorem runStatUpdates_nonneg_witness :
    0 ≤ (runStatUpdates freshCustomer demoSteps).total_orders ∧
    0 ≤ (runStatUpdates freshCustomer demoSteps).total_spent :=
  runStatUpdates_nonneg freshCustomer demoSteps (by decide) (by decide)
    (by rintro s hs; simp [demoSteps] at hs; rcases hs with h | h <;> subst h <;> decide)

/-- C10: inserting an orders row — whatever its initial status and
`customer_id`, including `served` with a customer attached — leaves the
customers table exactly as it was: the only trigger that touches customer
aggregates (`update_customer_stats_trigger`) is attached `AFTER UPDATE` only,
and the `BEFORE INSERT` trigger (`set_order_number`) touches only the inserted
row's `order_number`. -/
theorem insertOrder_preserves_customers (s : DBState) (o : OrderRow) (today : Nat)
    (datePrefix : String) :
    (insertOrder s o today datePrefix).customers = s.customers := rfl

/-- A table of `n` copies of `dayStartOrder` has day-0 count `n` for
restaurant 1. -/
theorem dbTodayCount_replicate (n : Nat) :
    dbTodayCount (List.replicate n dayStartOrder) 1 0 = n := by
  induction n with
  | zero => rfl
  | succ k ih =>
    rw [List.replicate_succ]
    simp [dbTodayCount, List.filter_cons, dayStartOrder, dateOf, msPerDay]

/-- `LPAD` and `padStart` agree whenever the string needs no truncation. -/
theorem lpad_eq_padStart (s : String) (n : Nat) (fill : Char) (h : s.length ≤ n) :
    lpad s n fill = padStart s n fill := by
  unfold lpad padStart
  split_ifs with hge
  · have hlen : s.toList.length = n := by
      have hsd : s.toList.length = s.length := rfl
      omega
    rw [← hlen, List.take_length]
    cases s
    rfl
  · rfl

/-- When no order of the tenant falls in the final millisecond of the day, the
client-side count window (`gte T00:00:00.000`, `lt T23:59:59.999`) selects
exactly the orders whose `DATE(created_at)` is the day. -/
theorem clientTodayCount_eq_dbTodayCount (orders : List OrderRow) (r today : Nat)
    (hlast : ∀ o ∈ orders, o.restaurant_id = r → dateOf o.created_at = today →
      o.created_at < today * msPerDay + (msPerDay - 1)) :
    clientTodayCount orders r today = dbTodayCount orders r today := by
  have hpt : ∀ o ∈ orders,
      (o.restaurant_id == r && decide (today * msPerDay ≤ o.created_at)
        && decide (o.created_at < today * msPerDay + (msPerDay - 1)))
      = (o.restaurant_id == r && dateOf o.created_at == today) := by
    intro o ho
    rw [Bool.eq_iff_iff]
    simp only [Bool.and_eq_true, beq_iff_eq, decide_eq_true_eq]
    constructor
    · rintro ⟨⟨hr, hge⟩, hlt⟩
      refine ⟨hr, ?_⟩
      simp only [dateOf, msPerDay] at hge hlt ⊢
      omega
    · rintro ⟨hr, hdate⟩
      have hl := hlast o ho hr hdate
      simp only [dateOf, msPerDay] at hdate hl ⊢
      refine ⟨⟨hr, ?_⟩, ?_⟩ <;> omega
  unfold clientTodayCount dbTodayCount
  rw [List.filter_congr hpt]

/-- C4 (counterexample): the two generators do not implement the claimed
count-plus-one, zero-padded computation.  (i) For a single existing order
created in the final millisecond of the day, the client generator's window
(`lt T23:59:59.999`) misses it and produces `-0001` where the date-count rule
says `-0002`.  (ii) For 9999 existing orders the database generator's
`LPAD(10000, 4, '0')` truncates to `-1000` where zero-padding the count
yields `-10000`. -/
theorem orderNumber_generators_diverge :
    clientGenerateOrderNumber [lastMsOrder] 1 0 "20250811" ≠
      claimedOrderNumber [lastMsOrder] 1 0 "20250811" ∧
    generate_order_number (List.replicate 9999 dayStartOrder) 1 0 "20250811" ≠
      claimedOrderNumber (List.replicate 9999 dayStartOrder) 1 0 "20250811" := by
  constructor
  · decide
  · have h := dbTodayCount_replicate 9999
    simp only [generate_order_number, claimedOrderNumber, h]
    decide

/-- C4 (amended): provided the day's sequence number renders in at most four
digits (count + 1 ≤ 9999, so `LPAD` does not truncate) and no order of the
tenant was created in the final millisecond of the day (which the client
window misses), both the database-side and the client-side generator produce
the claimed number: the date prefix, a dash, and the date-count plus one
zero-padded to four digits. -/
theorem orderNumber_generators_agree (orders : List OrderRow) (r today : Nat)
    (datePrefix : String)
    (hdigits : (toString (dbTodayCount orders r today + 1)).length ≤ 4)
    (hlast : ∀ o ∈ orders, o.restaurant_id = r → dateOf o.created_at = today →
      o.created_at < today * msPerDay + (msPerDay - 1)) :
    generate_order_number orders r today datePrefix =
      claimedOrderNumber orders r today datePrefix ∧
    clientGenerateOrderNumber orders r today datePrefix =
      claimedOrderNumber orders r today datePrefix := by
  constructor
  · unfold generate_order_number claimedOrderNumber
    rw [lpad_eq_padStart _ _ _ hdigits]
  · unfold clientGenerateOrderNumber claimedOrderNumber
    rw [clientTodayCount_eq_dbTodayCount orders r today hlast]

/-- C4 (witness): with one existing order at the very start of day 0, both
generators produce `20250811-0002`, the second number of the day (and with no
orders, the first is `-0001`, the padded count plus one). -/
theorem orderNumber_generators_agree_witness :
    generate_order_number [dayStartOrder] 1 0 "20250811" =
      claimedOrderNumber [dayStartOrder] 1 0 "20250811" ∧
    clientGenerateOrderNumber [dayStartOrder] 1 0 "20250811" =
      claimedOrderNumber [dayStartOrder] 1 0 "20250811" ∧
    claimedOrderNumber [dayStartOrder] 1 0 "20250811" = "20250811-0002" := by
  have hlast : ∀ o ∈ [dayStartOrder], o.restaurant_id = 1 → dateOf o.created_at = 0 →
      o.created_at < 0 * msPerDay + (msPerDay - 1) := by
    intro o ho
    simp only [List.mem_singleton] at ho
    subst ho
    intro h1 h2
    decide
  exact ⟨(orderNumber_generators_agree [dayStartOrder] 1 0 "20250811" (by decide) hlast).1,
         (orderNumber_generators_agree [dayStartOrder] 1 0 "20250811" (by decide) hlast).2,
         by decide⟩

/-- C5: `validate_order_item` rejects an order item with both references set,
and one with neither, with the both/neither `RAISE` (a `ValidationError`; the
`check_item_reference` CHECK constraint is violated on exactly those shapes
too); when the single referenced menu item or combo meal belongs to a
different restaurant than the item's order, it rejects with the corresponding
cross-restaurant `RAISE` (a `ReferentialError`).  The function is a pure
accept/reject: it returns a verdict and touches no state. -/
theorem validate_order_item_spec (menu_items : List MenuItemRow)
    (combo_meals : List ComboMealRow) (orders : List OrderRow) (it : OrderItemRow) :
    (it.menu_item_id ≠ none → it.combo_meal_id ≠ none →
      validate_order_item menu_items combo_meals orders it =
        Except.error OrderItemError.bothOrNeitherReference ∧
      check_item_reference it = false) ∧
    (it.menu_item_id = none → it.combo_meal_id = none →
      validate_order_item menu_items combo_meals orders it =
        Except.error OrderItemError.bothOrNeitherReference ∧
      check_item_reference it = false) ∧
    (∀ mid, it.menu_item_id = some mid → it.combo_meal_id = none →
      (∀ mi ∈ menu_items, mi.id = mid → ∀ o ∈ orders, o.id = it.order_id →
        mi.restaurant_id ≠ o.restaurant_id) →
      validate_order_item menu_items combo_meals orders it =
        Except.error OrderItemError.menuItemWrongRestaurant) ∧
    (∀ cid, it.combo_meal_id = some cid → it.menu_item_id = none →
      (∀ cm ∈ combo_meals, cm.id = cid → ∀ o ∈ orders, o.id = it.order_id →
        cm.restaurant_id ≠ o.restaurant_id) →
      validate_order_item menu_items combo_meals orders it =
        Except.error OrderItemError.comboMealWrongRestaurant) ∧
    (kindOf OrderItemError.bothOrNeitherReference = ErrKind.ValidationError ∧
      kindOf OrderItemError.menuItemWrongRestaurant = ErrKind.ReferentialError ∧
      kindOf OrderItemError.comboMealWrongRestaurant = ErrKind.ReferentialError) := by
  refine ⟨?_, ?_, ?_, ?_, rfl, rfl, rfl⟩
  · intro h1 h2
    refine ⟨?_, ?_⟩
    · unfold validate_order_item
      rw [if_pos (Or.inr ⟨h1, h2⟩)]
    · cases hm : it.menu_item_id with
      | none => exact absurd hm h1
      | some mid =>
        cases hc : it.combo_meal_id with
        | none => exact absurd hc h2
        | some cid => simp [check_item_reference, hm, hc]
  · intro h1 h2
    refine ⟨?_, ?_⟩
    · unfold validate_order_item
      rw [if_pos (Or.inl ⟨h1, h2⟩)]
    · simp [check_item_reference, h1, h2]
  · intro mid hm hc hmis
    have hany : ¬ (menu_items.any (fun mi => mi.id == mid &&
        orders.any (fun o => o.id == it.order_id && mi.restaurant_id == o.restaurant_id))
        = true) := by
      simp only [List.any_eq_true, Bool.and_eq_true, beq_iff_eq, not_exists]
      rintro mi ⟨hmem, hid, o, homem, hoid, hrest⟩
      exact hmis mi hmem hid o homem hoid hrest
    simp [validate_order_item, hm, hc, hany]
  · intro cid hc hm hmis
    have hany : ¬ (combo_meals.any (fun cm => cm.id == cid &&
        orders.any (fun o => o.id == it.order_id && cm.restaurant_id == o.restaurant_id))
        = true) := by
      simp only [List.any_eq_true, Bool.and_eq_true, beq_iff_eq, not_exists]
      rintro cm ⟨hmem, hid, o, homem, hoid, hrest⟩
      exact hmis cm hmem hid o homem hoid hrest
    simp [validate_order_item, hm, hc, hany]

/-- C5 (witness): on a catalog where menu item 5 and combo meal 6 belong to
restaurant 2 and order 9 belongs to restaurant 1: both references → the
validation `RAISE`; neither → the validation `RAISE`; a lone cross-restaurant
menu item or combo meal reference → the corresponding referential `RAISE`. -/
theorem validate_order_item_spec_witness :
    validate_order_item [menuItemOtherTenant] [comboMealOtherTenant] [orderTenantOne]
      { order_id := 9, menu_item_id := some 5, combo_meal_id := some 6 } =
      Except.error OrderItemError.bothOrNeitherReference ∧
    validate_order_item [menuItemOtherTenant] [comboMealOtherTenant] [orderTenantOne]
      { order_id := 9, menu_item_id := none, combo_meal_id := none } =
      Except.error OrderItemError.bothOrNeitherReference ∧
    validate_order_item [menuItemOtherTenant] [comboMealOtherTenant] [orderTenantOne]
      { order_id := 9, menu_item_id := some 5, combo_meal_id := none } =
      Except.error OrderItemError.menuItemWrongRestaurant ∧
    validate_order_item [menuItemOtherTenant] [comboMealOtherTenant] [orderTenantOne]
      { order_id := 9, menu_item_id := none, combo_meal_id := some 6 } =
      Except.error OrderItemError.comboMealWrongRestaurant := by
  refine ⟨?_, ?_, ?_, ?_⟩
  · exact ((validate_order_item_spec [menuItemOtherTenant] [comboMealOtherTenant]
      [orderTenantOne] _).1 (by decide) (by decide)).1
  · exact ((validate_order_item_spec [menuItemOtherTenant] [comboMealOtherTenant]
      [orderTenantOne] _).2.1 rfl rfl).1
  · refine (validate_order_item_spec [menuItemOtherTenant] [comboMealOtherTenant]
      [orderTenantOne] _).2.2.1 5 rfl rfl ?_
    intro mi hmi hid o ho hoid
    simp only [List.mem_singleton] at hmi ho
    subst hmi
    subst ho
    decide
  · refine (validate_order_item_spec [menuItemOtherTenant] [comboMealOtherTenant]
      [orderTenantOne] _).2.2.2.1 6 rfl rfl ?_
    intro cm hcm hid o ho hoid
    simp only [List.mem_singleton] at hcm ho
    subst hcm
    subst ho
    decide

/-- C6: the open/closed evaluator returns closed when no business-hours row
exists for the day, when the row is marked closed, or when either time is
null; with both times set it is open on an overnight span (`close < open`)
exactly when `open ≤ t` OR `t ≤ close`, and on a same-day span exactly when
`open ≤ t` AND `t ≤ close`, both endpoints inclusive. -/
theorem is_revenue_center_open_spec (rows : List BusinessHoursRow) (day tod : Nat) :
    (rows.find? (fun b => b.day_of_week == day) = none →
      is_revenue_center_open rows day tod = false) ∧
    (∀ bh, rows.find? (fun b => b.day_of_week == day) = some bh → bh.is_closed = true →
      is_revenue_center_open rows day tod = false) ∧
    (∀ bh, rows.find? (fun b => b.day_of_week == day) = some bh →
      (bh.open_time = none ∨ bh.close_time = none) →
      is_revenue_center_open rows day tod = false) ∧
    (∀ bh op cl, rows.find? (fun b => b.day_of_week == day) = some bh →
      bh.is_closed = false → bh.open_time = some op → bh.close_time = some cl →
      cl < op →
      (is_revenue_center_open rows day tod = true ↔ (op ≤ tod ∨ tod ≤ cl))) ∧
    (∀ bh op cl, rows.find? (fun b => b.day_of_week == day) = some bh →
      bh.is_closed = false → bh.open_time = some op → bh.close_time = some cl →
      ¬ cl < op →
      (is_revenue_center_open rows day tod = true ↔ (op ≤ tod ∧ tod ≤ cl))) := by
  refine ⟨?_, ?_, ?_, ?_, ?_⟩
  · intro hfind
    simp [is_revenue_center_open, hfind]
  · intro bh hfind hclosed
    simp [is_revenue_center_open, hfind, hclosed]
  · intro bh hfind hnull
    rcases hnull with h | h
    · simp [is_revenue_center_open, hfind, h]
    · cases ho : bh.open_time <;> simp [is_revenue_center_open, hfind, h, ho]
  · intro bh op cl hfind hopen hot hct hco
    simp [is_revenue_center_open, hfind, hopen, hot, hct, hco]
  · intro bh op cl hfind hopen hot hct hco
    simp [is_revenue_center_open, hfind, hopen, hot, hct, hco]

/-- C6 (witness): Monday hours 22:00–02:00 (minutes 1320 and 120), not closed:
23:30 (1410) is open, 10:00 (600) is closed, and the inclusive close boundary
02:00 (120) is open — evaluated through the overnight branch of the
evaluator's specification. -/
theorem is_revenue_center_open_spec_witness :
    is_revenue_center_open mondayOvernightRows 1 1410 = true ∧
    is_revenue_center_open mondayOvernightRows 1 600 = false ∧
    is_revenue_center_open mondayOvernightRows 1 120 = true := by
  have h1410 := (is_revenue_center_open_spec mondayOvernightRows 1 1410).2.2.2.1
    { day_of_week := 1, open_time := some 1320, close_time := some 120, is_closed := false }
    1320 120 rfl rfl rfl rfl (by decide)
  have h600 := (is_revenue_center_open_spec mondayOvernightRows 1 600).2.2.2.1
    { day_of_week := 1, open_time := some 1320, close_time := some 120, is_closed := false }
    1320 120 rfl rfl rfl rfl (by decide)
  have h120 := (is_revenue_center_open_spec mondayOvernightRows 1 120).2.2.2.1
    { day_of_week := 1, open_time := some 1320, close_time := some 120, is_closed := false }
    1320 120 rfl rfl rfl rfl (by decide)
  refine ⟨h1410.mpr (by decide), ?_, h120.mpr (by decide)⟩
  exact Bool.eq_false_iff.mpr (fun hb => absurd (h600.mp hb) (by decide))

/-- C7 (counterexample): the aggregate fields are NOT maintained exclusively
by the order-status trigger.  `CustomerService.updateCustomerOrderStats` — a
service-layer operation that involves no order status transition — takes a
fresh customer `(0, 0.00, null)` straight to `(1, 10.00, some 5)`. -/
theorem customer_stats_writable_outside_engine :
    updateCustomerOrderStats freshCustomer 1000 5 =
      { id := 1, total_orders := 1, total_spent := 1000, last_order_at := some 5 } ∧
    (updateCustomerOrderStats freshCustomer 1000 5).total_orders ≠
      freshCustomer.total_orders := by
  refine ⟨?_, ?_⟩ <;> decide

/-- C7 (amended): the store-side trigger maintains the aggregates on order
status transitions, but they are not write-protected: the service layer's
`CustomerService.updateCustomer` accepts arbitrary values for `total_orders`,
`total_spent` and `last_order_at` and writes them through, and
`updateCustomerOrderStats` (unused elsewhere in the repository) rewrites all
three directly — so the fields are independently writable outside the
Consistency Rules Engine. -/
theorem updateCustomer_writes_aggregates (c : Customer) (n s : Int) (t : Option Nat)
    (amt : Int) (now : Nat) :
    (updateCustomer c ⟨some n, some s, some t⟩).total_orders = n ∧
    (updateCustomer c ⟨some n, some s, some t⟩).total_spent = s ∧
    (updateCustomer c ⟨some n, some s, some t⟩).last_order_at = t ∧
    updateCustomerOrderStats c amt now =
      { c with total_orders := c.total_orders + 1,
               total_spent := c.total_spent + amt,
               last_order_at := some now } :=
  ⟨rfl, rfl, rfl, rfl⟩

/-- C8 (counterexample): re-running the provisioning endpoint for an email
whose owner record exists but has no identity-provider account does not
repair anything: the handler's email-uniqueness check fires first and returns
the 409 conflict, leaving the store untouched — in particular no
identity-provider account is created or linked. -/
theorem createKitchenOwner_rejects_existing_email :
    createKitchenOwnerHandler dbOwnerNoAuth reqOwner 2 2 true =
      (dbOwnerNoAuth, ProvisionResponse.conflict) ∧
    (createKitchenOwnerHandler dbOwnerNoAuth reqOwner 2 2 true).1.auth_users = [] ∧
    (createKitchenOwnerHandler dbOwnerNoAuth reqOwner 2 2 true).1.kitchen_owners =
      [{ id := 1, email := "owner@example.com", user_id := none }] := by
  refine ⟨?_, ?_, ?_⟩ <;> decide

/-- C8 (amended): re-running the endpoint with an email for which an owner
record already exists (identity-provider account or not) is rejected with the
409 conflict response and changes nothing: no duplicate owner row, and also no
identity-provider account — the endpoint performs no reconciliation. -/
theorem createKitchenOwnerHandler_conflict (db : ProvisionDB) (req : ProvisionRequest)
    (newOwnerId newAuthId : Nat) (authOk : Bool) (e : String)
    (he : req.email = some e)
    (hf : req.full_name ≠ none) (hp : req.subscription_plan ≠ none)
    (hpay : req.payment_id ≠ none) (hamt : req.subscription_amount ≠ none)
    (hexp : req.subscription_expires_at ≠ none)
    (hex : db.kitchen_owners.any (fun o => o.email == e) = true) :
    createKitchenOwnerHandler db req newOwnerId newAuthId authOk =
      (db, ProvisionResponse.conflict) := by
  unfold createKitchenOwnerHandler
  rw [if_neg (by simp [he]), if_neg hf, if_neg hp, if_neg hpay, if_neg hamt, if_neg hexp]
  simp [he, hex]

/-- C8 (witness): the concrete repair scenario — owner record for
`owner@example.com`, empty identity provider — evaluated through the amended
theorem: the handler returns the 409 conflict and the store is unchanged. -/
theorem createKitchenOwnerHandler_conflict_witness :
    createKitchenOwnerHandler dbOwnerNoAuth reqOwner 2 2 true =
      (dbOwnerNoAuth, ProvisionResponse.conflict) :=
  createKitchenOwnerHandler_conflict dbOwnerNoAuth reqOwner 2 2 true "owner@example.com"
    rfl (by decide) (by decide) (by decide) (by decide) (by decide) (by decide)

/-- C9: nothing serialises the pre-insert `COUNT(*)` against concurrent
inserts.  Under the interleaving (A counts, B counts, A inserts, B inserts)
both sessions derive the same order number `20250811-0001`, so the
`UNIQUE (order_number)` constraint must reject one of them — concurrent
creation does not yield the claimed distinct `-0001`, `-0002` sequence, which
the serial schedule (A counts, A inserts, B counts, B inserts) does
produce. -/
theorem concurrent_order_numbers_collide :
    (runRace 1 0 "20250811" raceRowA raceRowB [true, false, true, false]).anum =
      some "20250811-0001" ∧
    (runRace 1 0 "20250811" raceRowA raceRowB [true, false, true, false]).bnum =
      some "20250811-0001" ∧
    (runRace 1 0 "20250811" raceRowA raceRowB [true, true, false, false]).anum =
      some "20250811-0001" ∧
    (runRace 1 0 "20250811" raceRowA raceRowB [true, true, false, false]).bnum =
      some "20250811-0002" := by
  refine ⟨?_, ?_, ?_, ?_⟩ <;> decide

end POS
